import Mathlib

/-!
Verification development for the QardioARM 2 BLE blood-pressure scripts.

The Python sources are shallowly embedded:
* `BPM` models `blood_pressure_monitor.py` (SFLOAT decoder, measurement
  parser, discovery loop, main orchestration order).
* `App` models `qardio_arm2_app.py` (`QardioArm2Client.parse_blood_pressure_measurement`).
* `Attempt1` models `attempt1.py` (`connect_to_device` with its
  "already connected" handling).

Bytes are modelled as `List Nat` (each entry a byte value); Python `bytes`
indexing that can raise `IndexError` is modelled with `l[i]?` and `Option`
propagation, so `none` stands for any non-measurement outcome (the early
`return None` / `return {}` paths and any uncaught exception).  Python
numbers (`int`, and `float` results of `/` and `10 ** e`) are modelled as
exact rationals `ℚ`.
-/

namespace Qardio

/-- Two's-complement reading of a `bits`-wide field, as in the spec's words:
"low 12 bits = mantissa (two's-complement over 12 bits), high 4 bits =
exponent (two's-complement over 4 bits)". -/
def toSigned (bits v : Nat) : ℤ :=
  if v < 2 ^ (bits - 1) then (v : ℤ) else (v : ℤ) - 2 ^ bits

/-- Spec-side SFLOAT meaning (spec §4.2 step 3): value = mantissa × 10^exponent
with mantissa the low 12 bits and exponent the high 4 bits, both
two's-complement.  This definition follows the spec's words and is compared
against the code-side `BPM.parse_sfloat`. -/
def sfloat_spec (value : Nat) : ℚ :=
  (toSigned 12 (value % 4096) : ℚ) * (10 : ℚ) ^ (toSigned 4 (value / 4096 % 16))

namespace BPM

/-- `blood_pressure_monitor.py`, `parse_sfloat` (lines 52-64): mask the low 12
bits as mantissa and the high 4 bits as exponent, negate via bitwise
complement when the sign bit is set, and return `mantissa * (10 ** exponent)`.
Python's `~x & mask` on a nonnegative `x` equals `mask ^^^ x`. -/
def parse_sfloat (value : Nat) : ℚ :=
  let mantissa := value &&& 0x0FFF
  let exponent := (value >>> 12) &&& 0x000F
  let m : ℤ := if mantissa &&& 0x0800 ≠ 0 then -((((0x0FFF ^^^ mantissa) : Nat) : ℤ) + 1) else mantissa
  let e : ℤ := if exponent &&& 0x0008 ≠ 0 then -((((0x000F ^^^ exponent) : Nat) : ℤ) + 1) else exponent
  (m : ℚ) * (10 : ℚ) ^ e

end BPM

/-- The six fields read for a measurement timestamp (year, month, day, hour,
minute, second), kept raw.  `blood_pressure_monitor.py` formats them into a
string with no validation; `qardio_arm2_app.py` feeds them to `datetime`. -/
structure DateTimeRaw where
  year : Nat
  month : Nat
  day : Nat
  hour : Nat
  minute : Nat
  second : Nat
deriving DecidableEq

namespace BPM

/-- The dictionary returned by `blood_pressure_monitor.parse_blood_pressure_measurement`:
mandatory systolic/diastolic/mean-arterial/units entries plus the optional
timestamp and pulse-rate entries. -/
structure Measurement where
  systolic : ℚ
  diastolic : ℚ
  mean_arterial : ℚ
  units : String
  timestamp : Option DateTimeRaw
  pulse_rate : Option ℚ
deriving DecidableEq

/-- Lines 76-85: `if timestamp_present and len(data) >= offset + 7:`, read the
seven timestamp bytes at `offset`..`offset+6` and advance the offset by 7.
The state is the (result, offset) pair threaded through the function body. -/
def tsStep (data : List Nat) (flags : Nat) (st : Measurement × Nat) : Option (Measurement × Nat) :=
  if flags &&& 0x02 ≠ 0 ∧ st.2 + 7 ≤ data.length then
    data[st.2]?.bind fun y0 =>
    data[st.2 + 1]?.bind fun y1 =>
    data[st.2 + 2]?.bind fun mo =>
    data[st.2 + 3]?.bind fun dy =>
    data[st.2 + 4]?.bind fun hr =>
    data[st.2 + 5]?.bind fun mi =>
    data[st.2 + 6]?.bind fun sc =>
    some ({ st.1 with timestamp := some ⟨(y1 <<< 8) ||| y0, mo, dy, hr, mi, sc⟩ }, st.2 + 7)
  else some st

/-- Lines 87-90: `if pulse_rate_present and len(data) >= offset + 2:`, read two
bytes at `offset` and decode them as an SFLOAT (the offset is not advanced
afterwards in the source; nothing is read after this step). -/
def pulseStep (data : List Nat) (flags : Nat) (st : Measurement × Nat) : Option Measurement :=
  if flags &&& 0x04 ≠ 0 ∧ st.2 + 2 ≤ data.length then
    data[st.2]?.bind fun p0 =>
    data[st.2 + 1]?.bind fun p1 =>
    some { st.1 with pulse_rate := some (parse_sfloat ((p1 <<< 8) ||| p0)) }
  else some st.1

/-- `blood_pressure_monitor.parse_blood_pressure_measurement` (lines 22-92).
`if not data or len(data) < 7: return None`; then flags, the three raw
little-endian 16-bit reads `(data[i+1] << 8) | data[i]` decoded with
`parse_sfloat`, then the two optional-field steps from offset 7. -/
def parse_blood_pressure_measurement (data : List Nat) : Option Measurement :=
  if data = [] ∨ data.length < 7 then none else
  data[0]?.bind fun flags =>
  data[1]?.bind fun b1 =>
  data[2]?.bind fun b2 =>
  data[3]?.bind fun b3 =>
  data[4]?.bind fun b4 =>
  data[5]?.bind fun b5 =>
  data[6]?.bind fun b6 =>
  (tsStep data flags
    ({ systolic := parse_sfloat ((b2 <<< 8) ||| b1)
       diastolic := parse_sfloat ((b4 <<< 8) ||| b3)
       mean_arterial := parse_sfloat ((b6 <<< 8) ||| b5)
       units := if flags &&& 0x01 ≠ 0 then "kPa" else "mmHg"
       timestamp := none
       pulse_rate := none }, 7)).bind fun st =>
  pulseStep data flags st

/-- The timestamp record read at `off`: `year = (data[off+1] << 8) | data[off]`
followed by month, day, hour, minute, second bytes. -/
def expectedTimestamp (data : List Nat) (off : Nat) : DateTimeRaw :=
  ⟨(data.getD (off + 1) 0 <<< 8) ||| data.getD off 0, data.getD (off + 2) 0,
    data.getD (off + 3) 0, data.getD (off + 4) 0, data.getD (off + 5) 0, data.getD (off + 6) 0⟩

/-- Closed form of the parser on inputs of length at least 7 (proved equal to
`parse_blood_pressure_measurement` in `parse_bpm_eq`): every read is total and
each optional field is filled exactly when its flag is set and enough bytes
remain. -/
def parseTotal (data : List Nat) : Measurement :=
  let flags := data.getD 0 0
  let base : Measurement :=
    { systolic := parse_sfloat ((data.getD 2 0 <<< 8) ||| data.getD 1 0)
      diastolic := parse_sfloat ((data.getD 4 0 <<< 8) ||| data.getD 3 0)
      mean_arterial := parse_sfloat ((data.getD 6 0 <<< 8) ||| data.getD 5 0)
      units := if flags &&& 0x01 ≠ 0 then "kPa" else "mmHg"
      timestamp := none
      pulse_rate := none }
  let st : Measurement × Nat :=
    if flags &&& 0x02 ≠ 0 ∧ 7 + 7 ≤ data.length
    then ({ base with timestamp := some (expectedTimestamp data 7) }, 7 + 7)
    else (base, 7)
  if flags &&& 0x04 ≠ 0 ∧ st.2 + 2 ≤ data.length
  then { st.1 with pulse_rate := some (parse_sfloat ((data.getD (st.2 + 1) 0 <<< 8) ||| data.getD st.2 0)) }
  else st.1

/-- The offset after the timestamp step of `blood_pressure_monitor`'s parser:
14 when the timestamp was consumed, otherwise still 7. -/
def tsOffset (data : List Nat) : Nat :=
  if data.getD 0 0 &&& 0x02 ≠ 0 ∧ 7 + 7 ≤ data.length then 7 + 7 else 7

end BPM

/-- `struct.unpack('<H', bytes)` on two bytes: little-endian 16-bit value. -/
def u16le (lo hi : Nat) : Nat := lo + 256 * hi

namespace App

/-- Gregorian leap-year rule, as used by Python's `datetime`. -/
def isLeapYear (y : Nat) : Bool := y % 4 == 0 && (y % 100 != 0 || y % 400 == 0)

/-- Number of days in a month, as used by Python's `datetime`. -/
def daysInMonth (y m : Nat) : Nat :=
  if m = 2 then (if isLeapYear y then 29 else 28)
  else if m = 4 ∨ m = 6 ∨ m = 9 ∨ m = 11 then 30
  else 31

/-- Validity of `datetime.datetime(year, month, day, hours, minutes, seconds)`,
modelled from the documented semantics of Python's `datetime` constructor
(`MINYEAR = 1`, `MAXYEAR = 9999`, month 1-12, day within the month, hour 0-23,
minute and second 0-59); the constructor raises `ValueError` exactly on the
`false` cases, which `qardio_arm2_app.py` catches at line 295. -/
def isValidDateTime (y mo d h mi s : Nat) : Bool :=
  decide (1 ≤ y) && decide (y ≤ 9999) && decide (1 ≤ mo) && decide (mo ≤ 12) &&
  decide (1 ≤ d) && decide (d ≤ daysInMonth y mo) &&
  decide (h ≤ 23) && decide (mi ≤ 59) && decide (s ≤ 59)

/-- The dictionary built by `QardioArm2Client.parse_blood_pressure_measurement`
(lines 226-318).  The `'timestamp': datetime.now()` arrival-time entry is the
local wall clock, not part of the decoded payload, and is not modelled. -/
structure Measurement where
  systolic : ℚ
  diastolic : ℚ
  mean_arterial_pressure : ℚ
  unit : String
  flags : Nat
  device_timestamp : Option DateTimeRaw
  pulse_rate : Option ℚ
  user_id : Option Nat
  status : Option Nat
deriving DecidableEq

/-- Lines 284-298: if the timestamp flag is set and 7 more bytes remain, read
them; `datetime(...)` raising `ValueError` is caught and only logged, so the
field is set exactly when the calendar values are valid; the offset advances
by 7 in either case. -/
def tsStep (data : List Nat) (flags : Nat) (st : Measurement × Nat) : Option (Measurement × Nat) :=
  if flags &&& 0x02 ≠ 0 ∧ st.2 + 7 ≤ data.length then
    data[st.2]?.bind fun t0 =>
    data[st.2 + 1]?.bind fun t1 =>
    data[st.2 + 2]?.bind fun mo =>
    data[st.2 + 3]?.bind fun dy =>
    data[st.2 + 4]?.bind fun hr =>
    data[st.2 + 5]?.bind fun mi =>
    data[st.2 + 6]?.bind fun sc =>
    some (if isValidDateTime (u16le t0 t1) mo dy hr mi sc
      then ({ st.1 with device_timestamp := some ⟨u16le t0 t1, mo, dy, hr, mi, sc⟩ }, st.2 + 7)
      else (st.1, st.2 + 7))
  else some st

/-- Lines 300-303: pulse rate as `<H` divided by 10.0 (float division modelled
as exact rational division). -/
def pulseStep (data : List Nat) (flags : Nat) (st : Measurement × Nat) : Option (Measurement × Nat) :=
  if flags &&& 0x04 ≠ 0 ∧ st.2 + 2 ≤ data.length then
    data[st.2]?.bind fun p0 =>
    data[st.2 + 1]?.bind fun p1 =>
    some ({ st.1 with pulse_rate := some ((u16le p0 p1 : ℚ) / 10) }, st.2 + 2)
  else some st

/-- Lines 305-307: user id stored as-is. -/
def userStep (data : List Nat) (flags : Nat) (st : Measurement × Nat) : Option (Measurement × Nat) :=
  if flags &&& 0x08 ≠ 0 ∧ st.2 + 1 ≤ data.length then
    data[st.2]?.bind fun u =>
    some ({ st.1 with user_id := some u }, st.2 + 1)
  else some st

/-- Lines 309-312: measurement status as an opaque `<H` bitfield. -/
def statusStep (data : List Nat) (flags : Nat) (st : Measurement × Nat) : Option (Measurement × Nat) :=
  if flags &&& 0x10 ≠ 0 ∧ st.2 + 2 ≤ data.length then
    data[st.2]?.bind fun s0 =>
    data[st.2 + 1]?.bind fun s1 =>
    some ({ st.1 with status := some (u16le s0 s1) }, st.2 + 2)
  else some st

/-- `QardioArm2Client.parse_blood_pressure_measurement`: length guard
(`len(data) < 7` returns `{}`), flags, the three raw `<H` reads at offsets
1/3/5 divided by 10.0 (mmHg) or 1000.0 (kPa) — the source's simplifying
fixed-point interpretation, not an SFLOAT decode — then the four
optional-field steps from offset 7. -/
def parse_blood_pressure_measurement (data : List Nat) : Option Measurement :=
  if data.length < 7 then none else
  data[0]?.bind fun flags =>
  data[1]?.bind fun s1 =>
  data[2]?.bind fun s2 =>
  data[3]?.bind fun d1 =>
  data[4]?.bind fun d2 =>
  data[5]?.bind fun m1 =>
  data[6]?.bind fun m2 =>
  let unit := if flags &&& 0x01 ≠ 0 then "kPa" else "mmHg"
  (tsStep data flags
    ({ systolic := if unit = "mmHg" then (u16le s1 s2 : ℚ) / 10 else (u16le s1 s2 : ℚ) / 1000
       diastolic := if unit = "mmHg" then (u16le d1 d2 : ℚ) / 10 else (u16le d1 d2 : ℚ) / 1000
       mean_arterial_pressure := if unit = "mmHg" then (u16le m1 m2 : ℚ) / 10 else (u16le m1 m2 : ℚ) / 1000
       unit := unit
       flags := flags
       device_timestamp := none
       pulse_rate := none
       user_id := none
       status := none }, 7)).bind fun st1 =>
  (pulseStep data flags st1).bind fun st2 =>
  (userStep data flags st2).bind fun st3 =>
  (statusStep data flags st3).bind fun st4 =>
  some st4.1

/-- The mandatory part of the App measurement: raw `<H` values divided by 10.0
(mmHg) or 1000.0 (kPa). -/
def base (data : List Nat) : Measurement :=
  { systolic := if (if data.getD 0 0 &&& 0x01 ≠ 0 then "kPa" else "mmHg") = "mmHg" then (u16le (data.getD 1 0) (data.getD 2 0) : ℚ) / 10 else (u16le (data.getD 1 0) (data.getD 2 0) : ℚ) / 1000
    diastolic := if (if data.getD 0 0 &&& 0x01 ≠ 0 then "kPa" else "mmHg") = "mmHg" then (u16le (data.getD 3 0) (data.getD 4 0) : ℚ) / 10 else (u16le (data.getD 3 0) (data.getD 4 0) : ℚ) / 1000
    mean_arterial_pressure := if (if data.getD 0 0 &&& 0x01 ≠ 0 then "kPa" else "mmHg") = "mmHg" then (u16le (data.getD 5 0) (data.getD 6 0) : ℚ) / 10 else (u16le (data.getD 5 0) (data.getD 6 0) : ℚ) / 1000
    unit := if data.getD 0 0 &&& 0x01 ≠ 0 then "kPa" else "mmHg"
    flags := data.getD 0 0
    device_timestamp := none
    pulse_rate := none
    user_id := none
    status := none }

/-- The timestamp record read at offset 7. -/
def tsRecord (data : List Nat) : DateTimeRaw :=
  ⟨u16le (data.getD 7 0) (data.getD (7 + 1) 0), data.getD (7 + 2) 0, data.getD (7 + 3) 0,
    data.getD (7 + 4) 0, data.getD (7 + 5) 0, data.getD (7 + 6) 0⟩

/-- Whether the timestamp bytes at offset 7 form a valid `datetime`. -/
def validTs (data : List Nat) : Bool :=
  isValidDateTime (u16le (data.getD 7 0) (data.getD (7 + 1) 0)) (data.getD (7 + 2) 0)
    (data.getD (7 + 3) 0) (data.getD (7 + 4) 0) (data.getD (7 + 5) 0) (data.getD (7 + 6) 0)

/-- State after the timestamp step. -/
def st1 (data : List Nat) : Measurement × Nat :=
  if data.getD 0 0 &&& 0x02 ≠ 0 ∧ 7 + 7 ≤ data.length
  then ((if validTs data
    then { base data with device_timestamp := some (tsRecord data) }
    else base data), 7 + 7)
  else (base data, 7)

/-- State after the pulse-rate step. -/
def st2 (data : List Nat) : Measurement × Nat :=
  if data.getD 0 0 &&& 0x04 ≠ 0 ∧ (st1 data).2 + 2 ≤ data.length
  then ({ (st1 data).1 with pulse_rate := some ((u16le (data.getD (st1 data).2 0) (data.getD ((st1 data).2 + 1) 0) : ℚ) / 10) }, (st1 data).2 + 2)
  else st1 data

/-- State after the user-id step. -/
def st3 (data : List Nat) : Measurement × Nat :=
  if data.getD 0 0 &&& 0x08 ≠ 0 ∧ (st2 data).2 + 1 ≤ data.length
  then ({ (st2 data).1 with user_id := some (data.getD (st2 data).2 0) }, (st2 data).2 + 1)
  else st2 data

/-- State after the status step. -/
def st4 (data : List Nat) : Measurement × Nat :=
  if data.getD 0 0 &&& 0x10 ≠ 0 ∧ (st3 data).2 + 2 ≤ data.length
  then ({ (st3 data).1 with status := some (u16le (data.getD (st3 data).2 0) (data.getD ((st3 data).2 + 1) 0)) }, (st3 data).2 + 2)
  else st3 data

/-- Closed form of the parser on inputs of length at least 7 (proved equal to
`parse_blood_pressure_measurement` in `parse_app_eq`). -/
def parseTotal (data : List Nat) : Measurement := (st4 data).1

/-- Offset after the timestamp step. -/
def off1 (data : List Nat) : Nat :=
  if data.getD 0 0 &&& 0x02 ≠ 0 ∧ 7 + 7 ≤ data.length then 7 + 7 else 7

/-- Offset after the pulse-rate step. -/
def off2 (data : List Nat) : Nat :=
  if data.getD 0 0 &&& 0x04 ≠ 0 ∧ off1 data + 2 ≤ data.length then off1 data + 2 else off1 data

/-- Offset after the user-id step. -/
def off3 (data : List Nat) : Nat :=
  if data.getD 0 0 &&& 0x08 ≠ 0 ∧ off2 data + 1 ≤ data.length then off2 data + 1 else off2 data

end App

/-- A discovered BLE peripheral as the discovery loops see it: advertised name
and address. -/
structure Device where
  name : String
  address : String
deriving DecidableEq

def DEVICE_NAME : String := "QardioARM 2"

def MAX_DISCOVERY_RETRIES : Nat := 3

def MAX_CONNECTION_RETRIES : Nat := 3

namespace BPM

/-- `next((dev for dev in devices if dev.name == DEVICE_NAME), None)`. -/
def findTarget (devices : List Device) : Option Device :=
  devices.find? fun dev => dev.name == DEVICE_NAME

/-- The body of `discover_device`'s `for attempt in range(1, MAX_DISCOVERY_RETRIES + 1)`
loop, recursing on the number of remaining attempts.  `scans k` is the device
list produced by the k-th `BleakScanner.discover()` call; an attempt whose
scan raises is control-flow-equivalent to one returning no matching device
(both log and continue to the next attempt).  The second component counts the
discovery calls performed. -/
def discoverGo (scans : Nat → List Device) (attempt : Nat) : Nat → Option Device × Nat
  | 0 => (none, 0)
  | remaining + 1 =>
    match findTarget (scans attempt) with
    | some d => (some d, 1)
    | none =>
      let r := discoverGo scans (attempt + 1) remaining
      (r.1, r.2 + 1)

/-- `blood_pressure_monitor.discover_device` (lines 113-138): up to
`MAX_DISCOVERY_RETRIES` scans starting at attempt 1, returning the matched
device or `None`; paired with the number of discovery calls made. -/
def discover_device (scans : Nat → List Device) : Option Device × Nat :=
  discoverGo scans 1 MAX_DISCOVERY_RETRIES

/-- The adapter-visible actions of `blood_pressure_monitor.main`, in program
order. -/
inductive Event where
  | discoverPhase
  | connectPhase
  | readFeature
  | subscribe
  | activationWrite
  | stopNotify
  | disconnect
deriving DecidableEq

/-- The sequence of adapter actions `main` performs (lines 200-251), indexed by
which fallible phases succeed: discovery returning a device, connection
returning a client, and `start_notify` not raising.  When subscription raises,
control jumps to the `finally` cleanup; `activate_measurement` catches its own
exceptions, so once subscription succeeds the activation write is always
attempted, and the `finally` block always attempts `stop_notify` then
`disconnect`. -/
def mainTrace : Bool → Bool → Bool → List Event
  | false, _, _ => [.discoverPhase]
  | true, false, _ => [.discoverPhase, .connectPhase]
  | true, true, false =>
    [.discoverPhase, .connectPhase, .readFeature, .subscribe, .stopNotify, .disconnect]
  | true, true, true =>
    [.discoverPhase, .connectPhase, .readFeature, .subscribe, .activationWrite, .stopNotify, .disconnect]

end BPM

namespace Attempt1

/-- Outcome of one `BleakClient.connect()` call in `attempt1.connect_to_device`:
success, a `BleakError` carrying a message, or any other exception. -/
inductive ConnectOutcome where
  | ok
  | bleakError (msg : String)
  | otherError
deriving DecidableEq

/-- `"already connected" in str(e).lower()` (line 76). -/
def already_connected (msg : String) : Bool :=
  decide ("already connected".data <:+: msg.data.map Char.toLower)

/-- The `for attempt in range(1, MAX_CONNECTION_RETRIES + 1)` loop of
`attempt1.connect_to_device` (lines 59-91): success returns the client, a
`BleakError` whose message reports "already connected" is treated as success,
every other failure falls through to the retry; the result records the attempt
on which a client was returned. -/
def connectGo (outcomes : Nat → ConnectOutcome) (attempt : Nat) : Nat → Option Nat
  | 0 => none
  | remaining + 1 =>
    match outcomes attempt with
    | .ok => some attempt
    | .bleakError msg =>
      if already_connected msg then some attempt
      else connectGo outcomes (attempt + 1) remaining
    | .otherError => connectGo outcomes (attempt + 1) remaining

def connect_to_device (outcomes : Nat → ConnectOutcome) : Option Nat :=
  connectGo outcomes 1 MAX_CONNECTION_RETRIES

/-- An attempt outcome the loop accepts: a plain success, or a `BleakError`
reporting "already connected". -/
def succeedsAt (o : ConnectOutcome) : Prop :=
  o = .ok ∨ ∃ msg, o = .bleakError msg ∧ already_connected msg = true

end Attempt1

namespace BPM

/-- The `for attempt in range(1, MAX_CONNECTION_RETRIES + 1)` loop of
`blood_pressure_monitor.connect_to_device` (lines 140-158): `client.connect()`
returning normally yields the client; every exception — the error message is
never inspected, so a `BleakError` reporting "already connected" included —
falls into the general `except` handler and is retried. -/
def connectGo (outcomes : Nat → Attempt1.ConnectOutcome) (attempt : Nat) : Nat → Option Nat
  | 0 => none
  | remaining + 1 =>
    match outcomes attempt with
    | .ok => some attempt
    | .bleakError _ => connectGo outcomes (attempt + 1) remaining
    | .otherError => connectGo outcomes (attempt + 1) remaining

def connect_to_device (outcomes : Nat → Attempt1.ConnectOutcome) : Option Nat :=
  connectGo outcomes 1 MAX_CONNECTION_RETRIES

end BPM

end Qardio

namespace Qardio

theorem xor_mask (w : Nat) : ∀ m, m < 2 ^ w → (2 ^ w - 1) ^^^ m = 2 ^ w - 1 - m := by
  induction w with
  | zero =>
    intro m hm
    have hm0 : m = 0 := by omega
    subst hm0
    rfl
  | succ w ih =>
    intro m hm
    have hpow : 0 < 2 ^ w := Nat.pos_pow_of_pos w (by norm_num)
    have hq : m / 2 < 2 ^ w := by omega
    have hdiv : ((2 ^ (w + 1) - 1) ^^^ m) / 2 = (2 ^ w - 1) ^^^ (m / 2) := by
      rw [Nat.xor_div_two]
      congr 1
      have h2 : 2 ^ (w + 1) = 2 * 2 ^ w := by ring
      omega
    have hmod : ((2 ^ (w + 1) - 1) ^^^ m) % 2 = ((2 ^ (w + 1) - 1) + m) % 2 :=
      Nat.xor_mod_two_eq
    have hih := ih (m / 2) hq
    have hx := Nat.div_add_mod ((2 ^ (w + 1) - 1) ^^^ m) 2
    have hm2 := Nat.div_add_mod m 2
    have h2 : 2 ^ (w + 1) = 2 * 2 ^ w := by ring
    omega

theorem and_msb_iff (m k : Nat) (hm : m < 2 ^ (k + 1)) : m &&& 2 ^ k ≠ 0 ↔ 2 ^ k ≤ m := by
  have hpow : 0 < 2 ^ k := Nat.pos_pow_of_pos k (by norm_num)
  have h2 : 2 ^ (k + 1) = 2 * 2 ^ k := by ring
  have hmod := Nat.div_add_mod m (2 ^ k)
  have hlt : m % 2 ^ k < 2 ^ k := Nat.mod_lt _ hpow
  have ht : m.testBit k = decide (m / 2 ^ k % 2 = 1) := Nat.testBit_to_div_mod
  have hdiv : m / 2 ^ k < 2 := (Nat.div_lt_iff_lt_mul hpow).mpr (by omega)
  rw [Nat.and_two_pow, ht]
  have hd01 : m / 2 ^ k = 0 ∨ m / 2 ^ k = 1 := by
    have h1 : m / 2 ^ k ≤ 1 := Nat.lt_succ_iff.mp hdiv
    rcases Nat.eq_or_lt_of_le h1 with h | h
    · right; exact h
    · left; exact Nat.lt_one_iff.mp h
  rcases hd01 with hd | hd
  · rw [hd] at hmod ⊢
    simp
    omega
  · rw [hd] at hmod ⊢
    simp
    omega

/-- The code's SFLOAT decoder agrees with the spec-side reading for every raw
value (the masks make both sides depend only on the low 16 bits). -/
theorem parse_sfloat_eq_spec (value : Nat) : BPM.parse_sfloat value = sfloat_spec value := by
  unfold BPM.parse_sfloat sfloat_spec toSigned
  have hm : value &&& 0x0FFF = value % 4096 := by
    have h := Nat.and_pow_two_sub_one_eq_mod value 12
    norm_num at h
    exact h
  have hshift : value >>> 12 = value / 4096 := by
    have h := Nat.shiftRight_eq_div_pow value 12
    norm_num at h
    exact h
  have he : (value >>> 12) &&& 0x000F = value / 4096 % 16 := by
    rw [hshift]
    have h := Nat.and_pow_two_sub_one_eq_mod (value / 4096) 4
    norm_num at h
    exact h
  rw [hm, he]
  have hmlt : value % 4096 < 4096 := Nat.mod_lt _ (by norm_num)
  have helt : value / 4096 % 16 < 16 := Nat.mod_lt _ (by norm_num)
  have hmiff : value % 4096 &&& 0x0800 ≠ 0 ↔ 2048 ≤ value % 4096 := by
    have h := and_msb_iff (value % 4096) 11 (by norm_num; omega)
    norm_num at h ⊢
    exact h
  have heiff : value / 4096 % 16 &&& 0x0008 ≠ 0 ↔ 8 ≤ value / 4096 % 16 := by
    have h := and_msb_iff (value / 4096 % 16) 3 (by norm_num; omega)
    norm_num at h ⊢
    exact h
  have hmxor : 0x0FFF ^^^ value % 4096 = 4095 - value % 4096 := by
    have h := xor_mask 12 (value % 4096) (by norm_num; omega)
    norm_num at h ⊢
    exact h
  have hexor : 0x000F ^^^ value / 4096 % 16 = 15 - value / 4096 % 16 := by
    have h := xor_mask 4 (value / 4096 % 16) (by norm_num; omega)
    norm_num at h ⊢
    exact h
  have hmeq : (if value % 4096 &&& 0x0800 ≠ 0 then -((((0x0FFF ^^^ value % 4096) : Nat) : ℤ) + 1) else ((value % 4096 : Nat) : ℤ))
      = (if value % 4096 < 2 ^ (12 - 1) then ((value % 4096 : Nat) : ℤ) else ((value % 4096 : Nat) : ℤ) - 2 ^ 12) := by
    rcases Classical.em (value % 4096 &&& 0x0800 ≠ 0) with hbit | hbit
    · rw [if_pos hbit, hmxor]
      have hge : 2048 ≤ value % 4096 := hmiff.mp hbit
      rw [if_neg (by norm_num; omega)]
      push_cast
      omega
    · rw [if_neg hbit]
      have hlt2 : value % 4096 < 2048 := by
        rcases Nat.lt_or_ge (value % 4096) 2048 with h | h
        · exact h
        · exact absurd (hmiff.mpr h) hbit
      rw [if_pos (by norm_num; omega)]
  have heeq : (if value / 4096 % 16 &&& 0x0008 ≠ 0 then -((((0x000F ^^^ value / 4096 % 16) : Nat) : ℤ) + 1) else ((value / 4096 % 16 : Nat) : ℤ))
      = (if value / 4096 % 16 < 2 ^ (4 - 1) then ((value / 4096 % 16 : Nat) : ℤ) else ((value / 4096 % 16 : Nat) : ℤ) - 2 ^ 4) := by
    rcases Classical.em (value / 4096 % 16 &&& 0x0008 ≠ 0) with hbit | hbit
    · rw [if_pos hbit, hexor]
      have hge : 8 ≤ value / 4096 % 16 := heiff.mp hbit
      rw [if_neg (by norm_num; omega)]
      push_cast
      omega
    · rw [if_neg hbit]
      have hlt2 : value / 4096 % 16 < 8 := by
        rcases Nat.lt_or_ge (value / 4096 % 16) 8 with h | h
        · exact h
        · exact absurd (heiff.mpr h) hbit
      rw [if_pos (by norm_num; omega)]
  dsimp only
  rw [hmeq, heeq]

theorem getElem?_eq_getD (data : List Nat) (i : Nat) (h : i < data.length) :
    data[i]? = some (data.getD i 0) := by
  rw [List.getD_eq_getElem?_getD, List.getElem?_eq_getElem h]
  rfl

theorem tsStep_eq (data : List Nat) (flags : Nat) (st : BPM.Measurement × Nat) :
    BPM.tsStep data flags st =
      some (if flags &&& 0x02 ≠ 0 ∧ st.2 + 7 ≤ data.length
        then ({ st.1 with timestamp := some (BPM.expectedTimestamp data st.2) }, st.2 + 7)
        else st) := by
  unfold BPM.tsStep
  split
  · rename_i hc
    rw [getElem?_eq_getD data st.2 (by omega), getElem?_eq_getD data (st.2 + 1) (by omega),
      getElem?_eq_getD data (st.2 + 2) (by omega), getElem?_eq_getD data (st.2 + 3) (by omega),
      getElem?_eq_getD data (st.2 + 4) (by omega), getElem?_eq_getD data (st.2 + 5) (by omega),
      getElem?_eq_getD data (st.2 + 6) (by omega)]
    rfl
  · rfl

theorem pulseStep_eq (data : List Nat) (flags : Nat) (st : BPM.Measurement × Nat) :
    BPM.pulseStep data flags st =
      some (if flags &&& 0x04 ≠ 0 ∧ st.2 + 2 ≤ data.length
        then { st.1 with pulse_rate := some (BPM.parse_sfloat ((data.getD (st.2 + 1) 0 <<< 8) ||| data.getD st.2 0)) }
        else st.1) := by
  unfold BPM.pulseStep
  split
  · rename_i hc
    rw [getElem?_eq_getD data st.2 (by omega), getElem?_eq_getD data (st.2 + 1) (by omega)]
    rfl
  · rfl

theorem parse_bpm_eq (data : List Nat) (h : 7 ≤ data.length) :
    BPM.parse_blood_pressure_measurement data = some (BPM.parseTotal data) := by
  have hne : ¬(data = [] ∨ data.length < 7) := by
    intro hc
    rcases hc with hc | hc
    · subst hc; simp at h
    · omega
  unfold BPM.parse_blood_pressure_measurement
  rw [if_neg hne]
  rw [getElem?_eq_getD data 0 (by omega), getElem?_eq_getD data 1 (by omega),
    getElem?_eq_getD data 2 (by omega), getElem?_eq_getD data 3 (by omega),
    getElem?_eq_getD data 4 (by omega), getElem?_eq_getD data 5 (by omega),
    getElem?_eq_getD data 6 (by omega)]
  simp only [Option.some_bind']
  rw [tsStep_eq]
  simp only [Option.some_bind']
  rw [pulseStep_eq]
  rfl

theorem tsStepApp_eq (data : List Nat) (flags : Nat) (st : App.Measurement × Nat) :
    App.tsStep data flags st =
      some (if flags &&& 0x02 ≠ 0 ∧ st.2 + 7 ≤ data.length
        then ((if App.isValidDateTime (u16le (data.getD st.2 0) (data.getD (st.2 + 1) 0)) (data.getD (st.2 + 2) 0) (data.getD (st.2 + 3) 0) (data.getD (st.2 + 4) 0) (data.getD (st.2 + 5) 0) (data.getD (st.2 + 6) 0)
          then { st.1 with device_timestamp := some ⟨u16le (data.getD st.2 0) (data.getD (st.2 + 1) 0), data.getD (st.2 + 2) 0, data.getD (st.2 + 3) 0, data.getD (st.2 + 4) 0, data.getD (st.2 + 5) 0, data.getD (st.2 + 6) 0⟩ }
          else st.1), st.2 + 7)
        else st) := by
  unfold App.tsStep
  split
  · rename_i hc
    rw [getElem?_eq_getD data st.2 (by omega), getElem?_eq_getD data (st.2 + 1) (by omega),
      getElem?_eq_getD data (st.2 + 2) (by omega), getElem?_eq_getD data (st.2 + 3) (by omega),
      getElem?_eq_getD data (st.2 + 4) (by omega), getElem?_eq_getD data (st.2 + 5) (by omega),
      getElem?_eq_getD data (st.2 + 6) (by omega)]
    simp only [Option.some_bind']
    split <;> rfl
  · rfl

theorem pulseStepApp_eq (data : List Nat) (flags : Nat) (st : App.Measurement × Nat) :
    App.pulseStep data flags st =
      some (if flags &&& 0x04 ≠ 0 ∧ st.2 + 2 ≤ data.length
        then ({ st.1 with pulse_rate := some ((u16le (data.getD st.2 0) (data.getD (st.2 + 1) 0) : ℚ) / 10) }, st.2 + 2)
        else st) := by
  unfold App.pulseStep
  split
  · rename_i hc
    rw [getElem?_eq_getD data st.2 (by omega), getElem?_eq_getD data (st.2 + 1) (by omega)]
    rfl
  · rfl

theorem userStepApp_eq (data : List Nat) (flags : Nat) (st : App.Measurement × Nat) :
    App.userStep data flags st =
      some (if flags &&& 0x08 ≠ 0 ∧ st.2 + 1 ≤ data.length
        then ({ st.1 with user_id := some (data.getD st.2 0) }, st.2 + 1)
        else st) := by
  unfold App.userStep
  split
  · rename_i hc
    rw [getElem?_eq_getD data st.2 (by omega)]
    rfl
  · rfl

theorem statusStepApp_eq (data : List Nat) (flags : Nat) (st : App.Measurement × Nat) :
    App.statusStep data flags st =
      some (if flags &&& 0x10 ≠ 0 ∧ st.2 + 2 ≤ data.length
        then ({ st.1 with status := some (u16le (data.getD st.2 0) (data.getD (st.2 + 1) 0)) }, st.2 + 2)
        else st) := by
  unfold App.statusStep
  split
  · rename_i hc
    rw [getElem?_eq_getD data st.2 (by omega), getElem?_eq_getD data (st.2 + 1) (by omega)]
    rfl
  · rfl

theorem parse_app_eq (data : List Nat) (h : 7 ≤ data.length) :
    App.parse_blood_pressure_measurement data = some (App.parseTotal data) := by
  have hne : ¬(data.length < 7) := by omega
  unfold App.parse_blood_pressure_measurement
  rw [if_neg hne]
  rw [getElem?_eq_getD data 0 (by omega), getElem?_eq_getD data 1 (by omega),
    getElem?_eq_getD data 2 (by omega), getElem?_eq_getD data 3 (by omega),
    getElem?_eq_getD data 4 (by omega), getElem?_eq_getD data 5 (by omega),
    getElem?_eq_getD data 6 (by omega)]
  simp only [Option.some_bind']
  rw [tsStepApp_eq]
  simp only [Option.some_bind']
  rw [pulseStepApp_eq]
  simp only [Option.some_bind']
  rw [userStepApp_eq]
  simp only [Option.some_bind']
  rw [statusStepApp_eq]
  rfl

theorem parseTotal_units (data : List Nat) :
    (BPM.parseTotal data).units = (if data.getD 0 0 &&& 0x01 ≠ 0 then "kPa" else "mmHg") := by
  unfold BPM.parseTotal
  dsimp only
  repeat' split
  all_goals rfl

theorem parseTotal_systolic (data : List Nat) :
    (BPM.parseTotal data).systolic = BPM.parse_sfloat ((data.getD 2 0 <<< 8) ||| data.getD 1 0) := by
  unfold BPM.parseTotal
  dsimp only
  repeat' split
  all_goals rfl

theorem parseTotal_timestamp (data : List Nat) :
    (BPM.parseTotal data).timestamp =
      (if data.getD 0 0 &&& 0x02 ≠ 0 ∧ 7 + 7 ≤ data.length
        then some (BPM.expectedTimestamp data 7) else none) := by
  unfold BPM.parseTotal
  dsimp only
  repeat' split
  all_goals rfl

theorem parseTotal_pulse (data : List Nat) :
    (BPM.parseTotal data).pulse_rate =
      (if data.getD 0 0 &&& 0x04 ≠ 0 ∧ BPM.tsOffset data + 2 ≤ data.length
        then some (BPM.parse_sfloat ((data.getD (BPM.tsOffset data + 1) 0 <<< 8) ||| data.getD (BPM.tsOffset data) 0))
        else none) := by
  unfold BPM.parseTotal BPM.tsOffset
  dsimp only
  by_cases h2 : data.getD 0 0 &&& 0x02 ≠ 0 ∧ 7 + 7 ≤ data.length
  · simp only [if_pos h2]
    repeat' split
    all_goals rfl
  · simp only [if_neg h2]
    repeat' split
    all_goals rfl

theorem st1_snd (data : List Nat) : (App.st1 data).2 = App.off1 data := by
  unfold App.st1 App.off1
  split <;> rfl

theorem st2_snd (data : List Nat) : (App.st2 data).2 = App.off2 data := by
  unfold App.st2 App.off2
  rw [st1_snd]
  split
  · rfl
  · exact st1_snd data

theorem st3_snd (data : List Nat) : (App.st3 data).2 = App.off3 data := by
  unfold App.st3 App.off3
  rw [st2_snd]
  split
  · rfl
  · exact st2_snd data

theorem st1_unit (data : List Nat) : (App.st1 data).1.unit = (App.base data).unit := by
  unfold App.st1
  repeat' split
  all_goals rfl

theorem st2_unit (data : List Nat) : (App.st2 data).1.unit = (App.st1 data).1.unit := by
  unfold App.st2
  split <;> rfl

theorem st3_unit (data : List Nat) : (App.st3 data).1.unit = (App.st2 data).1.unit := by
  unfold App.st3
  split <;> rfl

theorem st4_unit (data : List Nat) : (App.st4 data).1.unit = (App.st3 data).1.unit := by
  unfold App.st4
  split <;> rfl

theorem parseTotalApp_unit (data : List Nat) :
    (App.parseTotal data).unit = (if data.getD 0 0 &&& 0x01 ≠ 0 then "kPa" else "mmHg") := by
  unfold App.parseTotal
  rw [st4_unit, st3_unit, st2_unit, st1_unit]
  rfl

theorem st1_systolic (data : List Nat) : (App.st1 data).1.systolic = (App.base data).systolic := by
  unfold App.st1
  repeat' split
  all_goals rfl

theorem st2_systolic (data : List Nat) : (App.st2 data).1.systolic = (App.st1 data).1.systolic := by
  unfold App.st2
  split <;> rfl

theorem st3_systolic (data : List Nat) : (App.st3 data).1.systolic = (App.st2 data).1.systolic := by
  unfold App.st3
  split <;> rfl

theorem st4_systolic (data : List Nat) : (App.st4 data).1.systolic = (App.st3 data).1.systolic := by
  unfold App.st4
  split <;> rfl

theorem parseTotalApp_systolic_mmHg (data : List Nat) (h : data.getD 0 0 &&& 0x01 = 0) :
    (App.parseTotal data).systolic = (u16le (data.getD 1 0) (data.getD 2 0) : ℚ) / 10 := by
  unfold App.parseTotal
  rw [st4_systolic, st3_systolic, st2_systolic, st1_systolic]
  unfold App.base
  dsimp only
  rw [if_neg (by omega : ¬ data.getD 0 0 &&& 0x01 ≠ 0)]
  rw [if_pos rfl]

theorem st1_ts (data : List Nat) :
    (App.st1 data).1.device_timestamp =
      (if data.getD 0 0 &&& 0x02 ≠ 0 ∧ 7 + 7 ≤ data.length
        then (if App.validTs data then some (App.tsRecord data) else none)
        else none) := by
  unfold App.st1
  repeat' split
  all_goals rfl

theorem st2_ts (data : List Nat) :
    (App.st2 data).1.device_timestamp = (App.st1 data).1.device_timestamp := by
  unfold App.st2
  split <;> rfl

theorem st3_ts (data : List Nat) :
    (App.st3 data).1.device_timestamp = (App.st2 data).1.device_timestamp := by
  unfold App.st3
  split <;> rfl

theorem st4_ts (data : List Nat) :
    (App.st4 data).1.device_timestamp = (App.st3 data).1.device_timestamp := by
  unfold App.st4
  split <;> rfl

theorem parseTotalApp_ts (data : List Nat) :
    (App.parseTotal data).device_timestamp =
      (if data.getD 0 0 &&& 0x02 ≠ 0 ∧ 7 + 7 ≤ data.length
        then (if App.validTs data then some (App.tsRecord data) else none)
        else none) := by
  unfold App.parseTotal
  rw [st4_ts, st3_ts, st2_ts, st1_ts]

theorem st1_pulse (data : List Nat) : (App.st1 data).1.pulse_rate = none := by
  unfold App.st1
  repeat' split
  all_goals rfl

theorem st2_pulse (data : List Nat) :
    (App.st2 data).1.pulse_rate =
      (if data.getD 0 0 &&& 0x04 ≠ 0 ∧ App.off1 data + 2 ≤ data.length
        then some ((u16le (data.getD (App.off1 data) 0) (data.getD (App.off1 data + 1) 0) : ℚ) / 10)
        else none) := by
  unfold App.st2
  rw [st1_snd]
  split
  · rfl
  · exact st1_pulse data

theorem st3_pulse (data : List Nat) : (App.st3 data).1.pulse_rate = (App.st2 data).1.pulse_rate := by
  unfold App.st3
  split <;> rfl

theorem st4_pulse (data : List Nat) : (App.st4 data).1.pulse_rate = (App.st3 data).1.pulse_rate := by
  unfold App.st4
  split <;> rfl

theorem parseTotalApp_pulse (data : List Nat) :
    (App.parseTotal data).pulse_rate =
      (if data.getD 0 0 &&& 0x04 ≠ 0 ∧ App.off1 data + 2 ≤ data.length
        then some ((u16le (data.getD (App.off1 data) 0) (data.getD (App.off1 data + 1) 0) : ℚ) / 10)
        else none) := by
  unfold App.parseTotal
  rw [st4_pulse, st3_pulse, st2_pulse]

theorem st1_user (data : List Nat) : (App.st1 data).1.user_id = none := by
  unfold App.st1
  repeat' split
  all_goals rfl

theorem st2_user (data : List Nat) : (App.st2 data).1.user_id = (App.st1 data).1.user_id := by
  unfold App.st2
  split <;> rfl

theorem st3_user (data : List Nat) :
    (App.st3 data).1.user_id =
      (if data.getD 0 0 &&& 0x08 ≠ 0 ∧ App.off2 data + 1 ≤ data.length
        then some (data.getD (App.off2 data) 0)
        else none) := by
  unfold App.st3
  rw [st2_snd]
  split
  · rfl
  · rw [st2_user]
    exact st1_user data

theorem st4_user (data : List Nat) : (App.st4 data).1.user_id = (App.st3 data).1.user_id := by
  unfold App.st4
  split <;> rfl

theorem parseTotalApp_user (data : List Nat) :
    (App.parseTotal data).user_id =
      (if data.getD 0 0 &&& 0x08 ≠ 0 ∧ App.off2 data + 1 ≤ data.length
        then some (data.getD (App.off2 data) 0)
        else none) := by
  unfold App.parseTotal
  rw [st4_user, st3_user]

theorem st1_status (data : List Nat) : (App.st1 data).1.status = none := by
  unfold App.st1
  repeat' split
  all_goals rfl

theorem st2_status (data : List Nat) : (App.st2 data).1.status = (App.st1 data).1.status := by
  unfold App.st2
  split <;> rfl

theorem st3_status (data : List Nat) : (App.st3 data).1.status = (App.st2 data).1.status := by
  unfold App.st3
  split <;> rfl

theorem st4_status (data : List Nat) :
    (App.st4 data).1.status =
      (if data.getD 0 0 &&& 0x10 ≠ 0 ∧ App.off3 data + 2 ≤ data.length
        then some (u16le (data.getD (App.off3 data) 0) (data.getD (App.off3 data + 1) 0))
        else none) := by
  unfold App.st4
  rw [st3_snd]
  split
  · rfl
  · rw [st3_status, st2_status]
    exact st1_status data

theorem parseTotalApp_status (data : List Nat) :
    (App.parseTotal data).status =
      (if data.getD 0 0 &&& 0x10 ≠ 0 ∧ App.off3 data + 2 ≤ data.length
        then some (u16le (data.getD (App.off3 data) 0) (data.getD (App.off3 data + 1) 0))
        else none) := by
  unfold App.parseTotal
  rw [st4_status]

theorem discoverGo_none (scans : Nat → List Device) :
    ∀ r a, (∀ k, a ≤ k → k < a + r → BPM.findTarget (scans k) = none) →
      BPM.discoverGo scans a r = (none, r) := by
  intro r
  induction r with
  | zero => intro a h; rfl
  | succ n ih =>
    intro a h
    unfold BPM.discoverGo
    rw [h a le_rfl (by omega), ih (a + 1) (fun k hk1 hk2 => h k (by omega) (by omega))]

theorem discoverGo_found (scans : Nat → List Device) :
    ∀ r a j d, a ≤ j → j < a + r →
      (∀ k, a ≤ k → k < j → BPM.findTarget (scans k) = none) →
      BPM.findTarget (scans j) = some d →
      BPM.discoverGo scans a r = (some d, j + 1 - a) := by
  intro r
  induction r with
  | zero => intro a j d h1 h2 h3 h4; omega
  | succ n ih =>
    intro a j d h1 h2 h3 h4
    unfold BPM.discoverGo
    rcases Nat.eq_or_lt_of_le h1 with heq | hlt
    · subst heq
      rw [h4]
      have ha : a + 1 - a = 1 := by omega
      rw [ha]
    · rw [h3 a le_rfl hlt,
        ih (a + 1) j d (by omega) (by omega) (fun k hk1 hk2 => h3 k (by omega) hk2) h4]
      dsimp only
      have ha : j + 1 - (a + 1) + 1 = j + 1 - a := by omega
      rw [ha]

theorem connectGo_none (outcomes : Nat → Attempt1.ConnectOutcome) :
    ∀ r a, (∀ k, a ≤ k → k < a + r → ¬ Attempt1.succeedsAt (outcomes k)) →
      Attempt1.connectGo outcomes a r = none := by
  intro r
  induction r with
  | zero => intro a h; rfl
  | succ n ih =>
    intro a h
    unfold Attempt1.connectGo
    cases hoc : outcomes a with
    | ok => exact absurd (Or.inl hoc) (h a le_rfl (by omega))
    | bleakError msg =>
      by_cases hac : Attempt1.already_connected msg = true
      · exact absurd (Or.inr ⟨msg, hoc, hac⟩) (h a le_rfl (by omega))
      · dsimp only
        rw [if_neg hac]
        exact ih (a + 1) (fun k hk1 hk2 => h k (by omega) (by omega))
    | otherError => exact ih (a + 1) (fun k hk1 hk2 => h k (by omega) (by omega))

theorem connectGo_found (outcomes : Nat → Attempt1.ConnectOutcome) :
    ∀ r a j, a ≤ j → j < a + r →
      (∀ k, a ≤ k → k < j → ¬ Attempt1.succeedsAt (outcomes k)) →
      Attempt1.succeedsAt (outcomes j) →
      Attempt1.connectGo outcomes a r = some j := by
  intro r
  induction r with
  | zero => intro a j h1 h2 h3 h4; omega
  | succ n ih =>
    intro a j h1 h2 h3 h4
    unfold Attempt1.connectGo
    rcases Nat.eq_or_lt_of_le h1 with heq | hlt
    · subst heq
      rcases h4 with hok | ⟨msg, hmsg, hac⟩
      · rw [hok]
      · rw [hmsg]
        dsimp only
        rw [if_pos hac]
    · cases hoc : outcomes a with
      | ok => exact absurd (Or.inl hoc) (h3 a le_rfl hlt)
      | bleakError msg =>
        by_cases hac : Attempt1.already_connected msg = true
        · exact absurd (Or.inr ⟨msg, hoc, hac⟩) (h3 a le_rfl hlt)
        · dsimp only
          rw [if_neg hac]
          exact ih (a + 1) j (by omega) (by omega) (fun k hk1 hk2 => h3 k (by omega) hk2) h4
      | otherError =>
        exact ih (a + 1) j (by omega) (by omega) (fun k hk1 hk2 => h3 k (by omega) hk2) h4

/-- C4: every input byte sequence of length strictly less than 7 is rejected by
both parsers (`None` / `{}`), so a measurement record is only ever built from
at least 7 bytes. -/
theorem claim_C4 (data : List Nat) (h : data.length < 7) :
    BPM.parse_blood_pressure_measurement data = none ∧
    App.parse_blood_pressure_measurement data = none := by
  constructor
  · unfold BPM.parse_blood_pressure_measurement
    rw [if_pos (Or.inr h)]
  · unfold App.parse_blood_pressure_measurement
    rw [if_pos h]

theorem claim_C4_witness :
    ([1, 2, 3] : List Nat).length < 7 ∧
    (BPM.parse_blood_pressure_measurement [1, 2, 3] = none ∧
     App.parse_blood_pressure_measurement [1, 2, 3] = none) :=
  ⟨by decide, claim_C4 [1, 2, 3] (by decide)⟩

/-- C6: for every valid input both parsers report kPa exactly when bit 0 of the
flags byte is 1 and mmHg exactly when it is 0, whatever the other bits are. -/
theorem claim_C6 (data : List Nat) (h : 7 ≤ data.length) :
    ∃ mb ma, BPM.parse_blood_pressure_measurement data = some mb ∧
      App.parse_blood_pressure_measurement data = some ma ∧
      (mb.units = "kPa" ↔ data.getD 0 0 % 2 = 1) ∧
      (mb.units = "mmHg" ↔ data.getD 0 0 % 2 = 0) ∧
      (ma.unit = "kPa" ↔ data.getD 0 0 % 2 = 1) ∧
      (ma.unit = "mmHg" ↔ data.getD 0 0 % 2 = 0) := by
  have hand := Nat.and_one_is_mod (data.getD 0 0)
  refine ⟨BPM.parseTotal data, App.parseTotal data, parse_bpm_eq data h, parse_app_eq data h,
    ?_, ?_, ?_, ?_⟩
  · rw [parseTotal_units]
    split
    · rename_i hb
      exact ⟨fun _ => by omega, fun _ => rfl⟩
    · rename_i hb
      exact ⟨fun hs => absurd hs (by decide), fun hm => absurd hm (by omega)⟩
  · rw [parseTotal_units]
    split
    · rename_i hb
      exact ⟨fun hs => absurd hs (by decide), fun hm => absurd hm (by omega)⟩
    · rename_i hb
      exact ⟨fun _ => by omega, fun _ => rfl⟩
  · rw [parseTotalApp_unit]
    split
    · rename_i hb
      exact ⟨fun _ => by omega, fun _ => rfl⟩
    · rename_i hb
      exact ⟨fun hs => absurd hs (by decide), fun hm => absurd hm (by omega)⟩
  · rw [parseTotalApp_unit]
    split
    · rename_i hb
      exact ⟨fun hs => absurd hs (by decide), fun hm => absurd hm (by omega)⟩
    · rename_i hb
      exact ⟨fun _ => by omega, fun _ => rfl⟩

theorem claim_C6_witness :
    (7 : Nat) ≤ ([1, 0, 0, 0, 0, 0, 0] : List Nat).length ∧
    (∃ mb ma, BPM.parse_blood_pressure_measurement [1, 0, 0, 0, 0, 0, 0] = some mb ∧
      App.parse_blood_pressure_measurement [1, 0, 0, 0, 0, 0, 0] = some ma ∧
      (mb.units = "kPa" ↔ ([1, 0, 0, 0, 0, 0, 0] : List Nat).getD 0 0 % 2 = 1) ∧
      (mb.units = "mmHg" ↔ ([1, 0, 0, 0, 0, 0, 0] : List Nat).getD 0 0 % 2 = 0) ∧
      (ma.unit = "kPa" ↔ ([1, 0, 0, 0, 0, 0, 0] : List Nat).getD 0 0 % 2 = 1) ∧
      (ma.unit = "mmHg" ↔ ([1, 0, 0, 0, 0, 0, 0] : List Nat).getD 0 0 % 2 = 0)) :=
  ⟨by decide, claim_C6 [1, 0, 0, 0, 0, 0, 0] (by decide)⟩

/-- C10: on every input of length at least 7 both parsers are total — they
return a measurement (so no read can raise and trailing bytes are ignored) —
and each optional field is present only when its flag bit is set. -/
theorem claim_C10 (data : List Nat) (h : 7 ≤ data.length) :
    ∃ mb ma, BPM.parse_blood_pressure_measurement data = some mb ∧
      App.parse_blood_pressure_measurement data = some ma ∧
      (mb.timestamp.isSome → data.getD 0 0 &&& 0x02 ≠ 0) ∧
      (mb.pulse_rate.isSome → data.getD 0 0 &&& 0x04 ≠ 0) ∧
      (ma.device_timestamp.isSome → data.getD 0 0 &&& 0x02 ≠ 0) ∧
      (ma.pulse_rate.isSome → data.getD 0 0 &&& 0x04 ≠ 0) ∧
      (ma.user_id.isSome → data.getD 0 0 &&& 0x08 ≠ 0) ∧
      (ma.status.isSome → data.getD 0 0 &&& 0x10 ≠ 0) := by
  refine ⟨BPM.parseTotal data, App.parseTotal data, parse_bpm_eq data h, parse_app_eq data h,
    ?_, ?_, ?_, ?_, ?_, ?_⟩
  · rw [parseTotal_timestamp]
    split
    · rename_i hc
      exact fun _ => hc.1
    · intro hs
      simp at hs
  · rw [parseTotal_pulse]
    split
    · rename_i hc
      exact fun _ => hc.1
    · intro hs
      simp at hs
  · rw [parseTotalApp_ts]
    split
    · rename_i hc
      exact fun _ => hc.1
    · intro hs
      simp at hs
  · rw [parseTotalApp_pulse]
    split
    · rename_i hc
      exact fun _ => hc.1
    · intro hs
      simp at hs
  · rw [parseTotalApp_user]
    split
    · rename_i hc
      exact fun _ => hc.1
    · intro hs
      simp at hs
  · rw [parseTotalApp_status]
    split
    · rename_i hc
      exact fun _ => hc.1
    · intro hs
      simp at hs

theorem claim_C10_witness :
    (7 : Nat) ≤ ([0x1E, 0, 0, 0, 0, 0, 0] : List Nat).length ∧
    (∃ mb ma, BPM.parse_blood_pressure_measurement [0x1E, 0, 0, 0, 0, 0, 0] = some mb ∧
      App.parse_blood_pressure_measurement [0x1E, 0, 0, 0, 0, 0, 0] = some ma ∧
      (mb.timestamp.isSome → ([0x1E, 0, 0, 0, 0, 0, 0] : List Nat).getD 0 0 &&& 0x02 ≠ 0) ∧
      (mb.pulse_rate.isSome → ([0x1E, 0, 0, 0, 0, 0, 0] : List Nat).getD 0 0 &&& 0x04 ≠ 0) ∧
      (ma.device_timestamp.isSome → ([0x1E, 0, 0, 0, 0, 0, 0] : List Nat).getD 0 0 &&& 0x02 ≠ 0) ∧
      (ma.pulse_rate.isSome → ([0x1E, 0, 0, 0, 0, 0, 0] : List Nat).getD 0 0 &&& 0x04 ≠ 0) ∧
      (ma.user_id.isSome → ([0x1E, 0, 0, 0, 0, 0, 0] : List Nat).getD 0 0 &&& 0x08 ≠ 0) ∧
      (ma.status.isSome → ([0x1E, 0, 0, 0, 0, 0, 0] : List Nat).getD 0 0 &&& 0x10 ≠ 0)) :=
  ⟨by decide, claim_C10 [0x1E, 0, 0, 0, 0, 0, 0] (by decide)⟩

/-- C5: if the target name is never advertised, `discover_device` performs
exactly `MAX_DISCOVERY_RETRIES` discovery calls and returns no device; a match
on attempt j ends discovery right there, after exactly j calls. -/
theorem claim_C5 (scans : Nat → List Device) :
    ((∀ k, 1 ≤ k → k ≤ MAX_DISCOVERY_RETRIES → BPM.findTarget (scans k) = none) →
      BPM.discover_device scans = (none, MAX_DISCOVERY_RETRIES)) ∧
    (∀ j d, 1 ≤ j → j ≤ MAX_DISCOVERY_RETRIES →
      (∀ k, 1 ≤ k → k < j → BPM.findTarget (scans k) = none) →
      BPM.findTarget (scans j) = some d →
      BPM.discover_device scans = (some d, j)) := by
  have hM : MAX_DISCOVERY_RETRIES = 3 := rfl
  constructor
  · intro h
    unfold BPM.discover_device
    exact discoverGo_none scans MAX_DISCOVERY_RETRIES 1
      (fun k hk1 hk2 => h k hk1 (by omega))
  · intro j d h1 h2 h3 h4
    unfold BPM.discover_device
    rw [discoverGo_found scans MAX_DISCOVERY_RETRIES 1 j d h1 (by omega) h3 h4]
    have hj : j + 1 - 1 = j := by omega
    rw [hj]

theorem claim_C5_witness :
    BPM.discover_device (fun _ => []) = (none, MAX_DISCOVERY_RETRIES) ∧
    BPM.discover_device (fun _ => [⟨"QardioARM 2", "00:11:22:33:44:55"⟩]) =
      (some ⟨"QardioARM 2", "00:11:22:33:44:55"⟩, 1) :=
  ⟨(claim_C5 (fun _ => [])).1 (fun k h1 h2 => rfl),
   (claim_C5 (fun _ => [⟨"QardioARM 2", "00:11:22:33:44:55"⟩])).2 1
     ⟨"QardioARM 2", "00:11:22:33:44:55"⟩ (by decide) (by decide)
     (fun k hk1 hk2 => absurd (Nat.lt_of_le_of_lt hk1 hk2) (by decide))
     (by decide)⟩

theorem connectGoBPM_none (outcomes : Nat → Attempt1.ConnectOutcome) :
    ∀ r a, (∀ k, a ≤ k → k < a + r → outcomes k ≠ Attempt1.ConnectOutcome.ok) →
      BPM.connectGo outcomes a r = none := by
  intro r
  induction r with
  | zero => intro a h; rfl
  | succ n ih =>
    intro a h
    unfold BPM.connectGo
    cases hoc : outcomes a with
    | ok => exact absurd hoc (h a le_rfl (by omega))
    | bleakError msg => exact ih (a + 1) (fun k h1 h2 => h k (by omega) (by omega))
    | otherError => exact ih (a + 1) (fun k h1 h2 => h k (by omega) (by omega))

/-- C8 (amended): in `attempt1.connect_to_device` a `BleakError` reporting
"already connected" is accepted as a success on the attempt where it occurs,
and if no attempt succeeds in that sense all `MAX_CONNECTION_RETRIES` attempts
are used and the function returns no client; `blood_pressure_monitor`'s
`connect_to_device`, by contrast, never inspects the error and retries every
failing attempt, so it returns no client whenever no attempt plainly
succeeds — even if every failure reports "already connected". -/
theorem claim_C8 (outcomes : Nat → Attempt1.ConnectOutcome) :
    ((∀ k, 1 ≤ k → k ≤ MAX_CONNECTION_RETRIES → ¬ Attempt1.succeedsAt (outcomes k)) →
      Attempt1.connect_to_device outcomes = none) ∧
    (∀ j msg, 1 ≤ j → j ≤ MAX_CONNECTION_RETRIES →
      (∀ k, 1 ≤ k → k < j → ¬ Attempt1.succeedsAt (outcomes k)) →
      outcomes j = Attempt1.ConnectOutcome.bleakError msg →
      Attempt1.already_connected msg = true →
      Attempt1.connect_to_device outcomes = some j) ∧
    ((∀ k, 1 ≤ k → k ≤ MAX_CONNECTION_RETRIES → outcomes k ≠ Attempt1.ConnectOutcome.ok) →
      BPM.connect_to_device outcomes = none) := by
  have hM : MAX_CONNECTION_RETRIES = 3 := rfl
  refine ⟨?_, ?_, ?_⟩
  · intro h
    unfold Attempt1.connect_to_device
    exact connectGo_none outcomes MAX_CONNECTION_RETRIES 1
      (fun k hk1 hk2 => h k hk1 (by omega))
  · intro j msg h1 h2 h3 hmsg hac
    unfold Attempt1.connect_to_device
    exact connectGo_found outcomes MAX_CONNECTION_RETRIES 1 j h1 (by omega) h3
      (Or.inr ⟨msg, hmsg, hac⟩)
  · intro h
    unfold BPM.connect_to_device
    exact connectGoBPM_none outcomes MAX_CONNECTION_RETRIES 1
      (fun k hk1 hk2 => h k hk1 (by omega))

theorem claim_C8_witness :
    Attempt1.connect_to_device (fun _ => Attempt1.ConnectOutcome.otherError) = none ∧
    Attempt1.connect_to_device (fun _ => Attempt1.ConnectOutcome.bleakError "Device already connected") = some 1 ∧
    BPM.connect_to_device (fun _ => Attempt1.ConnectOutcome.otherError) = none :=
  ⟨(claim_C8 (fun _ => Attempt1.ConnectOutcome.otherError)).1
     (fun k h1 h2 hs => by
       rcases hs with hok | ⟨m, hm, _⟩
       · exact Attempt1.ConnectOutcome.noConfusion hok
       · exact Attempt1.ConnectOutcome.noConfusion hm),
   (claim_C8 (fun _ => Attempt1.ConnectOutcome.bleakError "Device already connected")).2.1 1
     "Device already connected" (by decide) (by decide)
     (fun k hk1 hk2 => absurd (Nat.lt_of_le_of_lt hk1 hk2) (by decide))
     rfl (by decide),
   (claim_C8 (fun _ => Attempt1.ConnectOutcome.otherError)).2.2
     (fun k h1 h2 hs => Attempt1.ConnectOutcome.noConfusion hs)⟩

/-- C8 counterexample: every connect attempt raises a `BleakError` whose
message reports "already connected"; `attempt1.connect_to_device` accepts it
as a success on the first attempt, but `blood_pressure_monitor`'s
`connect_to_device` — the other implementation of the Connecting transition —
retries it like any other failure and exhausts to no client, so the claim
fails on that code. -/
theorem claim_C8_counterexample :
    Attempt1.already_connected "device already connected" = true ∧
    BPM.connect_to_device (fun _ => Attempt1.ConnectOutcome.bleakError "device already connected") = none ∧
    Attempt1.connect_to_device (fun _ => Attempt1.ConnectOutcome.bleakError "device already connected") = some 1 := by
  refine ⟨by decide, by decide, by decide⟩

/-- C9: in every run of `main`, if the vendor activation payload is ever
written, the subscription to the blood-pressure notification stream happened
strictly earlier in the trace; the write never precedes the subscription. -/
theorem claim_C9 (discovered connected subscribed : Bool) (i : Nat)
    (h : (BPM.mainTrace discovered connected subscribed)[i]? = some BPM.Event.activationWrite) :
    ∃ j, j < i ∧ (BPM.mainTrace discovered connected subscribed)[j]? = some BPM.Event.subscribe := by
  cases discovered <;> cases connected <;> cases subscribed <;>
    (dsimp only [BPM.mainTrace] at h ⊢) <;>
    (have hnb : i < 7 := by
      rcases Nat.lt_or_ge i 7 with hlt | hge
      · exact hlt
      · exfalso
        rw [List.getElem?_eq_none (by simp; omega)] at h
        exact Option.noConfusion h) <;>
    (interval_cases i <;> first
      | exact ⟨3, by omega, rfl⟩
      | simp at h)

theorem claim_C9_witness :
    (BPM.mainTrace true true true)[4]? = some BPM.Event.activationWrite ∧
    ∃ j, j < 4 ∧ (BPM.mainTrace true true true)[j]? = some BPM.Event.subscribe :=
  ⟨rfl, claim_C9 true true true 4 rfl⟩

/-- C1 (amended): the decoder has no notion of reserved sentinels — the four
IEEE-11073 sentinel words are decoded as the ordinary two's-complement numbers
2046, -2046, 2047 and -2048 (mantissa × 10^0), not as tagged special values. -/
theorem claim_C1 :
    BPM.parse_sfloat 0x07FE = 2046 ∧ BPM.parse_sfloat 0x0802 = -2046 ∧
    BPM.parse_sfloat 0x07FF = 2047 ∧ BPM.parse_sfloat 0x0800 = -2048 := by
  refine ⟨?_, ?_, ?_, ?_⟩ <;> rw [parse_sfloat_eq_spec] <;> norm_num [sfloat_spec, toSigned]

/-- C1 counterexample: a payload whose systolic field is the +INFINITY
sentinel 0x07FE decodes to a plain measurement carrying the ordinary number
2046 (= 2046 × 10^0); no tagged special value exists anywhere in the parser's
result type. -/
theorem claim_C1_counterexample :
    BPM.parse_blood_pressure_measurement [0, 0xFE, 0x07, 0, 0, 0, 0] =
      some { systolic := 2046, diastolic := 0, mean_arterial := 0, units := "mmHg",
             timestamp := none, pulse_rate := none } := by
  rw [parse_bpm_eq _ (by norm_num)]
  unfold BPM.parseTotal
  have hb1 : (0 &&& 1 : Nat) = 0 := by decide
  have hb2 : (0 &&& 2 : Nat) = 0 := by decide
  have hb4 : (0 &&& 4 : Nat) = 0 := by decide
  have hsh : (7 <<< 8 ||| 254 : Nat) = 2046 := by decide
  have hz : (0 <<< 8 ||| 0 : Nat) = 0 := by decide
  norm_num [List.getD, hb1, hb2, hb4, hsh, hz, parse_sfloat_eq_spec, sfloat_spec, toSigned]

/-- C2 (amended): when a flag announces an optional field but too few trailing
bytes remain, both parsers return a successful measurement with that field
silently omitted — no error is reported. -/
theorem claim_C2 (data : List Nat) (h : 7 ≤ data.length) :
    ((data.getD 0 0 &&& 0x02 ≠ 0 ∧ data.length < 7 + 7 →
      (BPM.parse_blood_pressure_measurement data).map BPM.Measurement.timestamp = some none ∧
      (App.parse_blood_pressure_measurement data).map App.Measurement.device_timestamp = some none)) ∧
    (data.getD 0 0 &&& 0x04 ≠ 0 ∧ data.length < BPM.tsOffset data + 2 →
      (BPM.parse_blood_pressure_measurement data).map BPM.Measurement.pulse_rate = some none) ∧
    (data.getD 0 0 &&& 0x04 ≠ 0 ∧ data.length < App.off1 data + 2 →
      (App.parse_blood_pressure_measurement data).map App.Measurement.pulse_rate = some none) ∧
    (data.getD 0 0 &&& 0x08 ≠ 0 ∧ data.length < App.off2 data + 1 →
      (App.parse_blood_pressure_measurement data).map App.Measurement.user_id = some none) ∧
    (data.getD 0 0 &&& 0x10 ≠ 0 ∧ data.length < App.off3 data + 2 →
      (App.parse_blood_pressure_measurement data).map App.Measurement.status = some none) := by
  refine ⟨?_, ?_, ?_, ?_, ?_⟩
  · rintro ⟨hf, hlen⟩
    constructor
    · rw [parse_bpm_eq data h]
      simp only [Option.map_some']
      rw [parseTotal_timestamp, if_neg (fun hc => absurd hc.2 (by omega))]
    · rw [parse_app_eq data h]
      simp only [Option.map_some']
      rw [parseTotalApp_ts, if_neg (fun hc => absurd hc.2 (by omega))]
  · rintro ⟨hf, hlen⟩
    rw [parse_bpm_eq data h]
    simp only [Option.map_some']
    rw [parseTotal_pulse, if_neg (fun hc => absurd hc.2 (by omega))]
  · rintro ⟨hf, hlen⟩
    rw [parse_app_eq data h]
    simp only [Option.map_some']
    rw [parseTotalApp_pulse, if_neg (fun hc => absurd hc.2 (by omega))]
  · rintro ⟨hf, hlen⟩
    rw [parse_app_eq data h]
    simp only [Option.map_some']
    rw [parseTotalApp_user, if_neg (fun hc => absurd hc.2 (by omega))]
  · rintro ⟨hf, hlen⟩
    rw [parse_app_eq data h]
    simp only [Option.map_some']
    rw [parseTotalApp_status, if_neg (fun hc => absurd hc.2 (by omega))]

theorem claim_C2_witness :
    (7 : Nat) ≤ ([2, 0, 0, 0, 0, 0, 0] : List Nat).length ∧
    ([2, 0, 0, 0, 0, 0, 0] : List Nat).getD 0 0 &&& 0x02 ≠ 0 ∧
    ([2, 0, 0, 0, 0, 0, 0] : List Nat).length < 7 + 7 ∧
    ((BPM.parse_blood_pressure_measurement [2, 0, 0, 0, 0, 0, 0]).map BPM.Measurement.timestamp = some none ∧
     (App.parse_blood_pressure_measurement [2, 0, 0, 0, 0, 0, 0]).map App.Measurement.device_timestamp = some none) :=
  ⟨by decide, by decide, by decide,
   (claim_C2 [2, 0, 0, 0, 0, 0, 0] (by decide)).1 ⟨by decide, by decide⟩⟩

/-- C2 counterexample: flags declare the timestamp present but only the 7
mandatory bytes arrive; decode succeeds with the timestamp silently omitted
instead of failing with a truncation error. -/
theorem claim_C2_counterexample :
    BPM.parse_blood_pressure_measurement [2, 0, 0, 0, 0, 0, 0] =
      some { systolic := 0, diastolic := 0, mean_arterial := 0, units := "mmHg",
             timestamp := none, pulse_rate := none } := by
  rw [parse_bpm_eq _ (by norm_num)]
  unfold BPM.parseTotal
  have hb1 : (2 &&& 1 : Nat) = 0 := by decide
  have hb4 : (2 &&& 4 : Nat) = 0 := by decide
  have hz : (0 <<< 8 ||| 0 : Nat) = 0 := by decide
  norm_num [List.getD, hb1, hb4, hz, parse_sfloat_eq_spec, sfloat_spec, toSigned]

/-- C3 (amended): `blood_pressure_monitor.parse_sfloat` does decode every raw
16-bit word as an IEEE-11073 SFLOAT (two's-complement 12-bit mantissa, 4-bit
exponent, value = mantissa × 10^exponent, exact rational arithmetic), but the
`qardio_arm2_app` parser instead divides the raw little-endian integer by 10
(mmHg), a pre-scaled fixed-point interpretation. -/
theorem claim_C3 :
    (∀ value : Nat, BPM.parse_sfloat value = sfloat_spec value) ∧
    (∀ data : List Nat, 7 ≤ data.length → data.getD 0 0 &&& 0x01 = 0 →
      (App.parse_blood_pressure_measurement data).map App.Measurement.systolic =
        some ((u16le (data.getD 1 0) (data.getD 2 0) : ℚ) / 10)) := by
  constructor
  · exact parse_sfloat_eq_spec
  · intro data h h1
    rw [parse_app_eq data h]
    simp only [Option.map_some']
    rw [parseTotalApp_systolic_mmHg data h1]

theorem claim_C3_witness :
    BPM.parse_sfloat 0xF028 = sfloat_spec 0xF028 ∧
    (App.parse_blood_pressure_measurement [0, 128, 0, 0, 0, 0, 0]).map App.Measurement.systolic =
      some ((u16le (([0, 128, 0, 0, 0, 0, 0] : List Nat).getD 1 0) (([0, 128, 0, 0, 0, 0, 0] : List Nat).getD 2 0) : ℚ) / 10) :=
  ⟨claim_C3.1 0xF028, claim_C3.2 [0, 128, 0, 0, 0, 0, 0] (by decide) (by decide)⟩

/-- C3 counterexample: for the raw systolic word 0x0080 = 128 in mmHg the
`qardio_arm2_app` decoder yields 128 / 10 = 64/5, not the SFLOAT value
128 × 10^0 = 128 — it is a pre-scaled fixed-point division, not an SFLOAT
decode. -/
theorem claim_C3_counterexample :
    (App.parse_blood_pressure_measurement [0, 128, 0, 0, 0, 0, 0]).map App.Measurement.systolic =
      some ((64 : ℚ) / 5) ∧
    sfloat_spec 128 = 128 ∧ ((64 : ℚ) / 5) ≠ 128 := by
  refine ⟨?_, ?_, by norm_num⟩
  · rw [parse_app_eq _ (by norm_num)]
    simp only [Option.map_some']
    rw [parseTotalApp_systolic_mmHg _ (by decide)]
    norm_num [u16le, List.getD]
  · norm_num [sfloat_spec, toSigned]

/-- C7 (amended): when the timestamp flag is set, 7 timestamp bytes are
available but they encode an invalid calendar value, the `qardio_arm2_app`
parser catches the `ValueError`, logs a warning and returns the measurement
with `device_timestamp` silently omitted — no decode error; the
`blood_pressure_monitor` parser performs no validation at all and stores the
raw fields. -/
theorem claim_C7 (data : List Nat) (h7 : 7 ≤ data.length)
    (hf : data.getD 0 0 &&& 0x02 ≠ 0) (hlen : 7 + 7 ≤ data.length)
    (hv : App.validTs data = false) :
    (App.parse_blood_pressure_measurement data).map App.Measurement.device_timestamp = some none ∧
    (BPM.parse_blood_pressure_measurement data).map BPM.Measurement.timestamp =
      some (some (BPM.expectedTimestamp data 7)) := by
  constructor
  · rw [parse_app_eq data h7]
    simp only [Option.map_some']
    rw [parseTotalApp_ts, if_pos ⟨hf, hlen⟩, if_neg (by simp [hv])]
  · rw [parse_bpm_eq data h7]
    simp only [Option.map_some']
    rw [parseTotal_timestamp, if_pos ⟨hf, hlen⟩]

theorem claim_C7_witness :
    (7 : Nat) ≤ ([2, 0, 0, 0, 0, 0, 0, 232, 7, 13, 15, 8, 30, 0] : List Nat).length ∧
    ([2, 0, 0, 0, 0, 0, 0, 232, 7, 13, 15, 8, 30, 0] : List Nat).getD 0 0 &&& 0x02 ≠ 0 ∧
    (7 : Nat) + 7 ≤ ([2, 0, 0, 0, 0, 0, 0, 232, 7, 13, 15, 8, 30, 0] : List Nat).length ∧
    App.validTs [2, 0, 0, 0, 0, 0, 0, 232, 7, 13, 15, 8, 30, 0] = false ∧
    ((App.parse_blood_pressure_measurement [2, 0, 0, 0, 0, 0, 0, 232, 7, 13, 15, 8, 30, 0]).map App.Measurement.device_timestamp = some none ∧
     (BPM.parse_blood_pressure_measurement [2, 0, 0, 0, 0, 0, 0, 232, 7, 13, 15, 8, 30, 0]).map BPM.Measurement.timestamp =
       some (some (BPM.expectedTimestamp [2, 0, 0, 0, 0, 0, 0, 232, 7, 13, 15, 8, 30, 0] 7))) :=
  ⟨by decide, by decide, by decide, by decide,
   claim_C7 [2, 0, 0, 0, 0, 0, 0, 232, 7, 13, 15, 8, 30, 0] (by decide) (by decide) (by decide) (by decide)⟩

/-- C7 counterexample: a 14-byte payload with the timestamp flag set whose
timestamp bytes encode 2024-13-15 08:30:00 (month 13) decodes successfully
with `device_timestamp` absent, instead of failing with an invalid-timestamp
error. -/
theorem claim_C7_counterexample :
    (App.parse_blood_pressure_measurement [2, 0, 0, 0, 0, 0, 0, 232, 7, 13, 15, 8, 30, 0]).map App.Measurement.device_timestamp = some none := by
  rw [parse_app_eq _ (by norm_num)]
  simp only [Option.map_some']
  rw [parseTotalApp_ts, if_pos (by decide), if_neg (by decide)]

end Qardio
